import Mathlib

/-!
Shallow embedding of `homework.py`, a fitness-tracker module computing
distance, mean speed and calories for three workout kinds (Running,
SportsWalking, Swimming), plus a report formatter and a dispatcher
`read_package` mapping a workout-type code to a constructed record.

Numbers are modelled as exact rationals (`ℚ`).  Python's runtime faults
(`KeyError` on a missing dict key, `TypeError` on wrong constructor arity,
`ZeroDivisionError` on division by zero) are modelled by an explicit error
type `PyError`; the pure formula layer uses total `ℚ` division and is used
only under the validity hypotheses of the claims.
-/

namespace Homework

/-- Runtime faults the Python source can actually raise on the modelled
paths: a dictionary lookup miss carrying the missing key, a constructor
arity mismatch, and a division by zero.  The source's factory also has an
`except ValueError` clause, but none of the operations inside the `try`
raise `ValueError`, so no constructor models it. -/
inductive PyError
  | keyError (code : String)
  | typeError
  | zeroDivisionError
  deriving DecidableEq

/-- `Training.M_IN_KM` from the source. -/
def M_IN_KM : ℚ := 1000.0

/-- `Training.MIN_IN_H` from the source. -/
def MIN_IN_H : ℚ := 60.0

namespace Running

/-- `Running.CALORIES_MEAN_SPEED_MULTIPLIER` from the source. -/
def CALORIES_MEAN_SPEED_MULTIPLIER : ℚ := 18.0

/-- `Running.CALORIES_MEAN_SPEED_SHIFT` from the source. -/
def CALORIES_MEAN_SPEED_SHIFT : ℚ := 1.79

end Running

namespace SportsWalking

/-- `SportsWalking.CALORIES_WEIGHT_MULTIPLIER` from the source. -/
def CALORIES_WEIGHT_MULTIPLIER : ℚ := 0.035

/-- `SportsWalking.CALORIES_SPEED_HEIGHT_MULTIPLIER` from the source. -/
def CALORIES_SPEED_HEIGHT_MULTIPLIER : ℚ := 0.029

/-- `SportsWalking.KMH_IN_MSEC` from the source. -/
def KMH_IN_MSEC : ℚ := 0.278

/-- `SportsWalking.CM_IN_M` from the source. -/
def CM_IN_M : ℚ := 100.0

end SportsWalking

namespace Swimming

/-- `Swimming.LEN_STEP` from the source (overrides the base `0.65`). -/
def LEN_STEP : ℚ := 1.38

/-- `Swimming.EXTRA_MEAN_SPEED` from the source. -/
def EXTRA_MEAN_SPEED : ℚ := 1.1

/-- `Swimming.MEAN_SPEED_MULTIPLIER` from the source. -/
def MEAN_SPEED_MULTIPLIER : ℚ := 2.0

end Swimming

/-- The closed set of concrete training classes.  The Python base class
`Training` is abstract (its `get_spent_calories` raises
`NotImplementedError`), so only the three concrete variants are modelled.
Field order follows the constructors in the source. -/
inductive Training
  | running (action duration weight : ℚ)
  | sportsWalking (action duration weight height : ℚ)
  | swimming (action duration weight length_pool count_pool : ℚ)
  deriving DecidableEq

/-- Field `self.action`. -/
def Training.action : Training → ℚ
  | .running a _ _ => a
  | .sportsWalking a _ _ _ => a
  | .swimming a _ _ _ _ => a

/-- Field `self.duration`. -/
def Training.duration : Training → ℚ
  | .running _ d _ => d
  | .sportsWalking _ d _ _ => d
  | .swimming _ d _ _ _ => d

/-- Field `self.weight`. -/
def Training.weight : Training → ℚ
  | .running _ _ w => w
  | .sportsWalking _ _ w _ => w
  | .swimming _ _ w _ _ => w

/-- Class attribute `LEN_STEP`: `0.65` on the base class, overridden to
`1.38` by `Swimming`. -/
def Training.LEN_STEP : Training → ℚ
  | .swimming _ _ _ _ _ => Swimming.LEN_STEP
  | _ => 0.65

/-- `Training.get_distance`: `self.action * self.LEN_STEP / self.M_IN_KM`.
Inherited unchanged by all three concrete classes. -/
def Training.get_distance (t : Training) : ℚ :=
  t.action * t.LEN_STEP / M_IN_KM

/-- `get_mean_speed`: the base formula `get_distance() / duration` for
Running and SportsWalking; `Swimming` overrides it with
`length_pool * count_pool / M_IN_KM / duration`. -/
def Training.get_mean_speed (t : Training) : ℚ :=
  match t with
  | .swimming _ duration _ length_pool count_pool =>
      length_pool * count_pool / M_IN_KM / duration
  | _ => t.get_distance / t.duration

/-- `get_spent_calories`, one arm per concrete class, mirroring the three
overrides in the source. -/
def Training.get_spent_calories (t : Training) : ℚ :=
  match t with
  | .running _ duration weight =>
      (Running.CALORIES_MEAN_SPEED_MULTIPLIER * t.get_mean_speed
          + Running.CALORIES_MEAN_SPEED_SHIFT)
        * (weight / M_IN_KM)
        * (duration * MIN_IN_H)
  | .sportsWalking _ duration weight height =>
      (SportsWalking.CALORIES_WEIGHT_MULTIPLIER * weight
          + ((t.get_mean_speed * SportsWalking.KMH_IN_MSEC) ^ 2
              / (height / SportsWalking.CM_IN_M))
            * SportsWalking.CALORIES_SPEED_HEIGHT_MULTIPLIER * weight)
        * duration * MIN_IN_H
  | .swimming _ duration weight _ _ =>
      (t.get_mean_speed + Swimming.EXTRA_MEAN_SPEED)
        * Swimming.MEAN_SPEED_MULTIPLIER * weight * duration

/-- `type(self).__name__`, the concrete class name embedded in the report
by `show_training_info`. -/
def Training.typeName : Training → String
  | .running _ _ _ => "Running"
  | .sportsWalking _ _ _ _ => "SportsWalking"
  | .swimming _ _ _ _ _ => "Swimming"

/-- The `InfoMessage` dataclass: kind name plus the four numeric results. -/
structure InfoMessage where
  training_type : String
  duration : ℚ
  distance : ℚ
  speed : ℚ
  calories : ℚ

/-- `Training.show_training_info`: builds the `InfoMessage` from
`type(self).__name__`, the stored duration, and the three computed
quantities. -/
def Training.show_training_info (t : Training) : InfoMessage :=
  { training_type := t.typeName
    duration := t.duration
    distance := t.get_distance
    speed := t.get_mean_speed
    calories := t.get_spent_calories }

/-- The floor of a rational, written out as Euclidean integer division of
numerator by denominator so that it evaluates inside the kernel; it agrees
with Mathlib's `Int.floor` by `Rat.floor_def`. -/
def ratFloor (q : ℚ) : ℤ := q.num / q.den

/-- Round a rational to the nearest integer with ties to even, the rule
used by C's `printf`/Python's `format` when rendering `%.3f`. -/
def roundHalfEven (q : ℚ) : ℤ :=
  let f : ℤ := ratFloor q
  let r : ℚ := q - f
  if r < 1/2 then f
  else if 1/2 < r then f + 1
  else if f % 2 = 0 then f else f + 1

/-- Exactly three decimal digits, zero-padded: the fractional part of a
`:.3f` rendering of `r / 1000` for `r < 1000`. -/
def pad3 (r : ℕ) : String :=
  String.mk [Nat.digitChar (r / 100 % 10), Nat.digitChar (r / 10 % 10),
    Nat.digitChar (r % 10)]

/-- Python's `format(q, ".3f")` on an exact rational: round `q * 1000` to
the nearest integer (ties to even), then print sign, integer part, a
decimal point, and three zero-padded fractional digits. -/
def format3 (q : ℚ) : String :=
  let n : ℤ := roundHalfEven (q * 1000)
  let m : ℕ := n.natAbs
  (if n < 0 then "-" else "") ++ toString (m / 1000) ++ "." ++ pad3 (m % 1000)

/-- A token of the `InfoMessage.MSG` template: a literal piece, a field
rendered with `:.3f`, or a plain string field. -/
inductive Tok
  | lit (s : String)
  | fld3 (f : InfoMessage → ℚ)
  | fldS (f : InfoMessage → String)

/-- The `InfoMessage.MSG` template, tokenized: literal text alternating
with the five field substitutions, in the order of the source string. -/
def MSG : List Tok :=
  [ .lit "Тип тренировки: ", .fldS (fun m => m.training_type),
    .lit "; Длительность: ", .fld3 (fun m => m.duration),
    .lit " ч.; Дистанция: ", .fld3 (fun m => m.distance),
    .lit " км; Ср. скорость: ", .fld3 (fun m => m.speed),
    .lit " км/ч; Потрачено ккал: ", .fld3 (fun m => m.calories),
    .lit "." ]

/-- `InfoMessage.get_message`: `MSG.format(**dataclasses.asdict(self))`,
substituting each field of the record into the template. -/
def InfoMessage.get_message (m : InfoMessage) : String :=
  String.join (MSG.map fun tok =>
    match tok with
    | .lit s => s
    | .fld3 f => format3 (f m)
    | .fldS f => f m)

/-- Python division, which raises `ZeroDivisionError` on a zero divisor
instead of returning a value. -/
def pydiv (a b : ℚ) : Except PyError ℚ :=
  if b = 0 then .error .zeroDivisionError else .ok (a / b)

/-- `get_mean_speed` with Python's division semantics: the divisions by
`M_IN_KM` (a nonzero constant) are total, the final division by
`self.duration` can fault. -/
def Training.get_mean_speedE (t : Training) : Except PyError ℚ :=
  match t with
  | .swimming _ duration _ length_pool count_pool =>
      pydiv (length_pool * count_pool / M_IN_KM) duration
  | _ => pydiv t.get_distance t.duration

/-- `get_spent_calories` with Python's division semantics: the mean speed
is computed first (faulting on zero duration); SportsWalking additionally
divides by `self.height / CM_IN_M` (faulting on zero height). -/
def Training.get_spent_caloriesE (t : Training) : Except PyError ℚ :=
  match t with
  | .running _ duration weight => do
      let s ← t.get_mean_speedE
      pure ((Running.CALORIES_MEAN_SPEED_MULTIPLIER * s
          + Running.CALORIES_MEAN_SPEED_SHIFT)
        * (weight / M_IN_KM) * (duration * MIN_IN_H))
  | .sportsWalking _ duration weight height => do
      let s ← t.get_mean_speedE
      let q ← pydiv ((s * SportsWalking.KMH_IN_MSEC) ^ 2)
        (height / SportsWalking.CM_IN_M)
      pure ((SportsWalking.CALORIES_WEIGHT_MULTIPLIER * weight
          + q * SportsWalking.CALORIES_SPEED_HEIGHT_MULTIPLIER * weight)
        * duration * MIN_IN_H)
  | .swimming _ duration weight _ _ => do
      let s ← t.get_mean_speedE
      pure ((s + Swimming.EXTRA_MEAN_SPEED)
        * Swimming.MEAN_SPEED_MULTIPLIER * weight * duration)

/-- `read_package`: looks the workout-type code up in `WORKOUT_TO_CLASS`
(`SWM` ↦ Swimming, `RUN` ↦ Running, `WLK` ↦ SportsWalking) and calls the
class with the unpacked parameter list.  A missing key raises `KeyError`
carrying the code; a parameter list whose length differs from the
constructor's arity raises `TypeError`.  The source wraps the call in
`try ... except ValueError`, but neither the lookup nor the constructors
raise `ValueError`, so that clause is unreachable and adds nothing to the
model.  No numeric validation is performed. -/
def read_package (workout_type : String) (data : List ℚ) : Except PyError Training :=
  match workout_type, data with
  | "SWM", [a, d, w, lp, cp] => .ok (.swimming a d w lp cp)
  | "RUN", [a, d, w] => .ok (.running a d w)
  | "WLK", [a, d, w, h] => .ok (.sportsWalking a d w h)
  | wt, _ =>
      if wt = "SWM" ∨ wt = "RUN" ∨ wt = "WLK" then .error .typeError
      else .error (.keyError wt)

end Homework

namespace Homework

/-! ## Claims -/

/-- C1: for every valid Swimming record (positive duration), `get_distance`
equals `action * 1.38 / 1000`, `get_mean_speed` equals
`length_pool * count_pool / 1000 / duration`, and the mean speed is not
computed as `get_distance / duration`: on the demo Swimming input the two
expressions differ. -/
theorem C1_swimming_distance_and_speed (a d w lp cp : ℚ) (hd : 0 < d) :
    (Training.swimming a d w lp cp).get_distance = a * 1.38 / 1000 ∧
    (Training.swimming a d w lp cp).get_mean_speed = lp * cp / 1000 / d ∧
    (Training.swimming 720 1 80 25 40).get_mean_speed ≠
      (Training.swimming 720 1 80 25 40).get_distance
        / (Training.swimming 720 1 80 25 40).duration := by
  refine ⟨?_, ?_, ?_⟩ <;>
    simp only [Training.get_mean_speed, Training.get_distance, Training.duration,
      Training.action, Training.LEN_STEP, Swimming.LEN_STEP, M_IN_KM] <;>
    norm_num

/-- Witness for C1 at the demo Swimming input. -/
theorem C1_swimming_distance_and_speed_witness :
    (0:ℚ) < 1 ∧
    ((Training.swimming 720 1 80 25 40).get_distance = 720 * 1.38 / 1000 ∧
     (Training.swimming 720 1 80 25 40).get_mean_speed = 25 * 40 / 1000 / 1 ∧
     (Training.swimming 720 1 80 25 40).get_mean_speed ≠
       (Training.swimming 720 1 80 25 40).get_distance
         / (Training.swimming 720 1 80 25 40).duration) :=
  ⟨by norm_num, C1_swimming_distance_and_speed 720 1 80 25 40 (by norm_num)⟩

/-- C2: for every valid Running record, `get_spent_calories` equals
`(18.0 * mean_speed + 1.79) * (weight / 1000) * (duration * 60)`; for every
valid SportsWalking record (positive height), it equals
`(0.035 * weight + ((mean_speed * 0.278)^2 / (height / 100)) * 0.029 * weight)
 * duration * 60`. -/
theorem C2_running_walking_calories (a d w h : ℚ) (hd : 0 < d) (hh : 0 < h) :
    (Training.running a d w).get_spent_calories
      = (18.0 * (Training.running a d w).get_mean_speed + 1.79)
          * (w / 1000) * (d * 60) ∧
    (Training.sportsWalking a d w h).get_spent_calories
      = (0.035 * w
          + (((Training.sportsWalking a d w h).get_mean_speed * 0.278) ^ 2
              / (h / 100)) * 0.029 * w)
          * d * 60 := by
  constructor <;>
    simp only [Training.get_spent_calories, Training.get_mean_speed,
      Training.get_distance, Training.action, Training.duration, Training.weight,
      Training.LEN_STEP, Running.CALORIES_MEAN_SPEED_MULTIPLIER,
      Running.CALORIES_MEAN_SPEED_SHIFT, SportsWalking.CALORIES_WEIGHT_MULTIPLIER,
      SportsWalking.CALORIES_SPEED_HEIGHT_MULTIPLIER, SportsWalking.KMH_IN_MSEC,
      SportsWalking.CM_IN_M, M_IN_KM, MIN_IN_H] <;>
    norm_num

/-- Witness for C2 at the demo Running/SportsWalking inputs. -/
theorem C2_running_walking_calories_witness :
    (0:ℚ) < 1 ∧ (0:ℚ) < 180 ∧
    ((Training.running 15000 1 75).get_spent_calories
      = (18.0 * (Training.running 15000 1 75).get_mean_speed + 1.79)
          * (75 / 1000) * (1 * 60) ∧
     (Training.sportsWalking 15000 1 75 180).get_spent_calories
      = (0.035 * 75
          + (((Training.sportsWalking 15000 1 75 180).get_mean_speed * 0.278) ^ 2
              / (180 / 100)) * 0.029 * 75)
          * 1 * 60) :=
  ⟨by norm_num, by norm_num,
    C2_running_walking_calories 15000 1 75 180 (by norm_num) (by norm_num)⟩

/-- C3: for every valid Running and SportsWalking record (positive
duration), `get_distance` equals `action * 0.65 / 1000` and
`get_mean_speed` equals `get_distance / duration`. -/
theorem C3_base_distance_and_speed (a d w h : ℚ) (hd : 0 < d) :
    (Training.running a d w).get_distance = a * 0.65 / 1000 ∧
    (Training.sportsWalking a d w h).get_distance = a * 0.65 / 1000 ∧
    (Training.running a d w).get_mean_speed
      = (Training.running a d w).get_distance / d ∧
    (Training.sportsWalking a d w h).get_mean_speed
      = (Training.sportsWalking a d w h).get_distance / d := by
  refine ⟨?_, ?_, ?_, ?_⟩ <;>
    simp only [Training.get_mean_speed, Training.get_distance, Training.action,
      Training.duration, Training.LEN_STEP, M_IN_KM] <;>
    norm_num

/-- Witness for C3 at the demo Running/SportsWalking inputs. -/
theorem C3_base_distance_and_speed_witness :
    (0:ℚ) < 1 ∧
    ((Training.running 15000 1 75).get_distance = 15000 * 0.65 / 1000 ∧
     (Training.sportsWalking 9000 1 75 180).get_distance = 9000 * 0.65 / 1000 ∧
     (Training.running 15000 1 75).get_mean_speed
       = (Training.running 15000 1 75).get_distance / 1 ∧
     (Training.sportsWalking 9000 1 75 180).get_mean_speed
       = (Training.sportsWalking 9000 1 75 180).get_distance / 1) := by
  refine ⟨by norm_num, ?_⟩
  have h := C3_base_distance_and_speed 15000 1 75 180 (by norm_num)
  have h2 := C3_base_distance_and_speed 9000 1 75 180 (by norm_num)
  exact ⟨h.1, h2.2.1, h.2.2.1, h2.2.2.2⟩

/-- C9: for every workout kind, with positive weight and duration,
non-negative resulting mean speed, and (for SportsWalking) positive
height, `get_spent_calories` is non-negative. -/
theorem C9_calories_nonneg :
    (∀ a d w : ℚ, 0 < w → 0 < d →
      0 ≤ (Training.running a d w).get_mean_speed →
      0 ≤ (Training.running a d w).get_spent_calories) ∧
    (∀ a d w h : ℚ, 0 < w → 0 < d → 0 < h →
      0 ≤ (Training.sportsWalking a d w h).get_mean_speed →
      0 ≤ (Training.sportsWalking a d w h).get_spent_calories) ∧
    (∀ a d w lp cp : ℚ, 0 < w → 0 < d →
      0 ≤ (Training.swimming a d w lp cp).get_mean_speed →
      0 ≤ (Training.swimming a d w lp cp).get_spent_calories) := by
  refine ⟨fun a d w hw hd hs => ?_, fun a d w h hw hd hh hs => ?_,
    fun a d w lp cp hw hd hs => ?_⟩ <;>
    simp only [Training.get_spent_calories, Training.get_mean_speed,
      Training.get_distance, Training.action, Training.duration, Training.weight,
      Training.LEN_STEP, Running.CALORIES_MEAN_SPEED_MULTIPLIER,
      Running.CALORIES_MEAN_SPEED_SHIFT, SportsWalking.CALORIES_WEIGHT_MULTIPLIER,
      SportsWalking.CALORIES_SPEED_HEIGHT_MULTIPLIER, SportsWalking.KMH_IN_MSEC,
      SportsWalking.CM_IN_M, Swimming.EXTRA_MEAN_SPEED,
      Swimming.MEAN_SPEED_MULTIPLIER, M_IN_KM, MIN_IN_H] at hs ⊢
  · have h1 : (0:ℚ) ≤ 18.0 * (a * 0.65 / 1000.0 / d) + 1.79 := by nlinarith
    have h2 : (0:ℚ) ≤ w / 1000.0 := by positivity
    have h3 : (0:ℚ) ≤ d * 60.0 := by positivity
    exact mul_nonneg (mul_nonneg h1 h2) h3
  · have h1 : (0:ℚ) ≤ (a * 0.65 / 1000.0 / d * 0.278) ^ 2 / (h / 100.0) := by
      positivity
    have h2 : (0:ℚ) ≤ 0.035 * w
        + (a * 0.65 / 1000.0 / d * 0.278) ^ 2 / (h / 100.0) * 0.029 * w := by
      nlinarith
    have h3 : (0:ℚ) ≤ 60.0 := by norm_num
    exact mul_nonneg (mul_nonneg h2 hd.le) h3
  · have h1 : (0:ℚ) ≤ lp * cp / 1000.0 / d + 1.1 := by linarith
    exact mul_nonneg (mul_nonneg (mul_nonneg h1 (by norm_num)) hw.le) hd.le

/-- Witness for C9 at the three demo inputs. -/
theorem C9_calories_nonneg_witness :
    0 ≤ (Training.running 15000 1 75).get_spent_calories ∧
    0 ≤ (Training.sportsWalking 9000 1 75 180).get_spent_calories ∧
    0 ≤ (Training.swimming 720 1 80 25 40).get_spent_calories := by
  refine ⟨C9_calories_nonneg.1 15000 1 75 (by norm_num) (by norm_num) ?_,
    C9_calories_nonneg.2.1 9000 1 75 180 (by norm_num) (by norm_num)
      (by norm_num) ?_,
    C9_calories_nonneg.2.2 720 1 80 25 40 (by norm_num) (by norm_num) ?_⟩ <;>
    simp only [Training.get_mean_speed, Training.get_distance, Training.action,
      Training.duration, Training.LEN_STEP, M_IN_KM] <;>
    norm_num

/-- C10: the kind name embedded in the report by `show_training_info` is
exactly the concrete class name — Running, SportsWalking or Swimming; in
particular the WLK code constructs a record reporting the name
SportsWalking, which differs from the name Walking. -/
theorem C10_report_kind_names :
    (∀ a d w : ℚ,
      (Training.running a d w).show_training_info.training_type = "Running") ∧
    (∀ a d w h : ℚ,
      (Training.sportsWalking a d w h).show_training_info.training_type
        = "SportsWalking") ∧
    (∀ a d w lp cp : ℚ,
      (Training.swimming a d w lp cp).show_training_info.training_type
        = "Swimming") ∧
    read_package "WLK" [9000, 1, 75, 180]
      = .ok (.sportsWalking 9000 1 75 180) ∧
    (Training.sportsWalking 9000 1 75 180).show_training_info.training_type
      = "SportsWalking" ∧
    (Training.sportsWalking 9000 1 75 180).show_training_info.training_type
      ≠ "Walking" := by
  refine ⟨fun a d w => rfl, fun a d w h => rfl, fun a d w lp cp => rfl,
    rfl, rfl, ?_⟩
  decide

/-- C5: for every workout-type code outside SWM/RUN/WLK, `read_package`
fails with the unknown-workout-type error (the uncaught `KeyError` of the
dictionary lookup), which carries the offending code. -/
theorem C5_unknown_code_fails (wt : String) (data : List ℚ)
    (h1 : wt ≠ "SWM") (h2 : wt ≠ "RUN") (h3 : wt ≠ "WLK") :
    read_package wt data = .error (.keyError wt) := by
  rcases data with _ | ⟨x1, _ | ⟨x2, _ | ⟨x3, _ | ⟨x4, _ | ⟨x5, rest⟩⟩⟩⟩⟩ <;>
    simp [read_package, h1, h2, h3]

/-- Witness for C5 at the code XYZ. -/
theorem C5_unknown_code_fails_witness :
    "XYZ" ≠ "SWM" ∧ "XYZ" ≠ "RUN" ∧ "XYZ" ≠ "WLK" ∧
    read_package "XYZ" [720, 1, 80, 25, 40] = .error (.keyError "XYZ") :=
  ⟨by decide, by decide, by decide,
    C5_unknown_code_fails "XYZ" [720, 1, 80, 25, 40]
      (by decide) (by decide) (by decide)⟩

/-- C6 counterexample: `read_package` performs no numeric validation: with
the WLK code and a zero duration (a violated numeric constraint) it
succeeds instead of failing with an invalid-parameter error. -/
theorem C6_no_numeric_validation :
    read_package "WLK" [9000, 0, 75, 180]
      = .ok (.sportsWalking 9000 0 75 180) := rfl

/-- C6 (amended): for each recognized code, a parameter list whose length
differs from the constructor arity makes `read_package` fail with the
arity error (`TypeError`); in particular WLK with only 3 parameters.
Numeric constraints are not checked. -/
theorem C6_arity_mismatch_fails (data : List ℚ) :
    (data.length ≠ 5 → read_package "SWM" data = .error .typeError) ∧
    (data.length ≠ 3 → read_package "RUN" data = .error .typeError) ∧
    (data.length ≠ 4 → read_package "WLK" data = .error .typeError) ∧
    read_package "WLK" [9000, 1, 75] = .error .typeError := by
  rcases data with _ | ⟨x1, _ | ⟨x2, _ | ⟨x3, _ | ⟨x4, _ | ⟨x5, _ | ⟨x6, rest⟩⟩⟩⟩⟩⟩ <;>
    refine ⟨fun hl => ?_, fun hl => ?_, fun hl => ?_, ?_⟩ <;>
    simp_all [read_package]

/-- Witness for C6 (amended): WLK given only the 3 Running-shaped
parameters is an arity error. -/
theorem C6_arity_mismatch_fails_witness :
    ([9000, 1, 75] : List ℚ).length ≠ 4 ∧
    read_package "WLK" [9000, 1, 75] = .error .typeError :=
  ⟨by decide, (C6_arity_mismatch_fails [9000, 1, 75]).2.2.1 (by decide)⟩

/-- `ratFloor` agrees with Mathlib's floor on ℚ. -/
theorem ratFloor_eq_intFloor (q : ℚ) : ratFloor q = ⌊q⌋ := Rat.floor_def.symm

/-- `roundHalfEven` rounds down when the fractional part is below a half. -/
theorem roundHalfEven_eq_of_lt_half (q : ℚ) (f : ℤ) (hf : ⌊q⌋ = f)
    (h : q - f < 1/2) : roundHalfEven q = f := by
  simp only [roundHalfEven, ratFloor_eq_intFloor, hf]
  rw [if_pos h]

/-- `roundHalfEven` rounds up when the fractional part is above a half. -/
theorem roundHalfEven_eq_of_half_lt (q : ℚ) (f : ℤ) (hf : ⌊q⌋ = f)
    (h : 1/2 < q - f) : roundHalfEven q = f + 1 := by
  simp only [roundHalfEven, ratFloor_eq_intFloor, hf]
  rw [if_neg (by linarith), if_pos h]

/-- `format3` of a rational whose scaled rounding is the natural number
`n` prints the integer part `n / 1000`, a point, and the three digits of
`n % 1000`. -/
theorem format3_eq_nonneg (q : ℚ) (n : ℕ)
    (h : roundHalfEven (q * 1000) = (n : ℤ)) :
    format3 q = toString (n / 1000) ++ "." ++ pad3 (n % 1000) := by
  simp only [format3, h]
  rw [if_neg (not_lt.2 (Int.natCast_nonneg n))]
  norm_num

/-- `Nat.digitChar` of a value below ten is a decimal digit character. -/
theorem digitChar_isDigit_of_lt (k : ℕ) (hk : k < 10) :
    (Nat.digitChar k).isDigit = true := by
  interval_cases k <;> decide

/-- C4: dispatching the SWM code with parameters 720, 1, 80, 25, 40 yields
the Swimming record whose distance renders to 0.994, whose mean speed
renders to 1.000 and whose calories render to 336.000 at three decimal
places. -/
theorem C4_swm_end_to_end :
    read_package "SWM" [720, 1, 80, 25, 40]
      = .ok (.swimming 720 1 80 25 40) ∧
    format3 ((Training.swimming 720 1 80 25 40).get_distance) = "0.994" ∧
    format3 ((Training.swimming 720 1 80 25 40).get_mean_speed) = "1.000" ∧
    format3 ((Training.swimming 720 1 80 25 40).get_spent_calories)
      = "336.000" := by
  refine ⟨rfl, ?_, ?_, ?_⟩
  · have hd : (Training.swimming 720 1 80 25 40).get_distance = 621/625 := by
      simp only [Training.get_distance, Training.action, Training.LEN_STEP,
        Swimming.LEN_STEP, M_IN_KM]
      norm_num
    rw [hd, format3_eq_nonneg (621/625) 994 ?hr1]
    · decide
    case hr1 =>
      have hq : (621/625 : ℚ) * 1000 = 4968/5 := by norm_num
      have hf : ⌊(4968/5 : ℚ)⌋ = 993 := by
        rw [Int.floor_eq_iff]
        norm_num
      rw [hq, roundHalfEven_eq_of_half_lt (4968/5) 993 hf (by norm_num)]
      norm_num
  · have hs : (Training.swimming 720 1 80 25 40).get_mean_speed = 1 := by
      simp only [Training.get_mean_speed, M_IN_KM]
      norm_num
    rw [hs, format3_eq_nonneg 1 1000 ?hr2]
    · decide
    case hr2 =>
      have hq : (1 : ℚ) * 1000 = 1000 := by norm_num
      have hf : ⌊(1000 : ℚ)⌋ = 1000 := by
        rw [Int.floor_eq_iff]
        norm_num
      rw [hq, roundHalfEven_eq_of_lt_half 1000 1000 hf (by norm_num)]
      norm_num
  · have hc : (Training.swimming 720 1 80 25 40).get_spent_calories = 336 := by
      simp only [Training.get_spent_calories, Training.get_mean_speed,
        Training.weight, Training.duration, Swimming.EXTRA_MEAN_SPEED,
        Swimming.MEAN_SPEED_MULTIPLIER, M_IN_KM]
      norm_num
    rw [hc, format3_eq_nonneg 336 336000 ?hr3]
    · decide
    case hr3 =>
      have hq : (336 : ℚ) * 1000 = 336000 := by norm_num
      have hf : ⌊(336000 : ℚ)⌋ = 336000 := by
        rw [Int.floor_eq_iff]
        norm_num
      rw [hq, roundHalfEven_eq_of_lt_half 336000 336000 hf (by norm_num)]
      norm_num

/-- C8: `get_message` substitutes the five fields into the template in the
stated order, and every numeric field is rendered by `format3`, whose
output always ends in a decimal point followed by exactly three digit
characters, regardless of the magnitude of the value. -/
theorem C8_formatter_template (m : InfoMessage) :
    m.get_message
      = "Тип тренировки: " ++ m.training_type ++ "; Длительность: "
        ++ format3 m.duration ++ " ч.; Дистанция: " ++ format3 m.distance
        ++ " км; Ср. скорость: " ++ format3 m.speed
        ++ " км/ч; Потрачено ккал: " ++ format3 m.calories ++ "." ∧
    ∀ q : ℚ, ∃ p t : String, format3 q = p ++ "." ++ t ∧ t.length = 3 ∧
      ∀ c ∈ t.data, c.isDigit := by
  refine ⟨rfl, fun q => ?_⟩
  refine ⟨(if roundHalfEven (q * 1000) < 0 then "-" else "")
      ++ toString ((roundHalfEven (q * 1000)).natAbs / 1000),
    pad3 ((roundHalfEven (q * 1000)).natAbs % 1000), rfl, rfl, ?_⟩
  intro c hc
  simp only [pad3, String.data, List.mem_cons, List.not_mem_nil, or_false] at hc
  rcases hc with h | h | h <;>
    exact h ▸ digitChar_isDigit_of_lt _ (Nat.mod_lt _ (by norm_num))

/-- C7 counterexample: a zero duration makes `get_mean_speedE` propagate
the division fault `ZeroDivisionError`, and a zero SportsWalking height
makes `get_spent_caloriesE` propagate it as well; no validation error is
raised anywhere (the source has no validation). -/
theorem C7_division_fault_cex :
    (Training.running 15000 0 75).get_mean_speedE
      = .error .zeroDivisionError ∧
    (Training.sportsWalking 9000 1 75 0).get_spent_caloriesE
      = .error .zeroDivisionError := by
  refine ⟨rfl, ?_⟩
  simp [Training.get_spent_caloriesE, Training.get_mean_speedE, pydiv,
    SportsWalking.CM_IN_M, Except.bind, Training.duration, Bind.bind]

/-- C7 (amended): on a zero duration the mean-speed computation propagates
`ZeroDivisionError`, and on a zero SportsWalking height (with nonzero
duration) the calorie computation propagates `ZeroDivisionError`; the code
contains no guard turning these into a validation error. -/
theorem C7_division_fault_propagates :
    (∀ t : Training, t.duration = 0 →
      t.get_mean_speedE = .error .zeroDivisionError) ∧
    (∀ a d w : ℚ, d ≠ 0 →
      (Training.sportsWalking a d w 0).get_spent_caloriesE
        = .error .zeroDivisionError) := by
  constructor
  · intro t h
    rcases t with ⟨a, d, w⟩ | ⟨a, d, w, ht⟩ | ⟨a, d, w, lp, cp⟩ <;>
      simp only [Training.duration] at h <;>
      simp [Training.get_mean_speedE, pydiv, h, Training.duration]
  · intro a d w hd
    simp [Training.get_spent_caloriesE, Training.get_mean_speedE, pydiv, hd,
      SportsWalking.CM_IN_M, Except.bind, Training.duration, Bind.bind]

/-- Witness for C7 (amended) at concrete zero-duration and zero-height
records. -/
theorem C7_division_fault_propagates_witness :
    (Training.running 15000 0 75).duration = 0 ∧ (1:ℚ) ≠ 0 ∧
    ((Training.running 15000 0 75).get_mean_speedE
        = .error .zeroDivisionError ∧
     (Training.sportsWalking 9000 1 75 0).get_spent_caloriesE
        = .error .zeroDivisionError) :=
  ⟨rfl, by norm_num,
    C7_division_fault_propagates.1 (Training.running 15000 0 75) rfl,
    C7_division_fault_propagates.2 9000 1 75 (by norm_num)⟩

end Homework

